import Mathlib

/-!
Verification development for the text-file editor model of this repository:
the save/dirty/conflict lifecycle of `TextFileEditorModel`
(`vs/workbench/services/textfile/common/textFileEditorModel`).

The implementation file itself is not part of the shipped sources; only its
test suite (`textFileEditorModel.test.ts`) and the public interface
declarations (`EncodingMode`, `ISaveOptions`, `IRevertOptions` in
`vs/workbench/common/editor`) are. The state machine below is therefore
modelled from the specification (spec.md sections 3 to 7), with the interface
records translated from the declarations present in the sources.

Operations are embedded as pure functions: each takes the model plus the
response of the external content store (read or write outcome) and returns
the updated model together with the list of notifications fired, so that
event counts can be stated exactly.
-/

namespace TextFile

/-- States of the model lifecycle, from spec section 4: `SAVED` (initial and
post-load), `DIRTY`, `PENDING_SAVE`, `CONFLICT`, `ERROR`. -/
inductive ModelState where
  | SAVED
  | DIRTY
  | PENDING_SAVE
  | CONFLICT
  | ERROR
deriving DecidableEq, Repr

/-- On-disk metadata as of the last successful load or save (spec section 3:
modification time and size). `mtime` is an `Int` so that the sentinel `-1`
used by the tests for "no stat yet" is expressible. -/
structure FileStat where
  mtime : Int
  size : Nat
deriving DecidableEq, Repr

/-- Notifications exposed to consumers (spec section 6): content-changed,
dirty-changed, saved, save-error, reverted, encoding-changed, loaded,
disposed. -/
inductive TextFileEvent where
  | contentChanged
  | dirtyChanged
  | saved
  | saveError
  | reverted
  | encodingChanged
  | loaded
  | disposedEvent
deriving DecidableEq, BEq, Repr

/-- Outcome of `read(resource)` on the external content store (spec section
6): success with content and stat, or failure with `NOT_FOUND`,
`NOT_MODIFIED_SINCE`, or a generic I/O error. -/
inductive ReadResult where
  | ok (content : String) (stat : FileStat)
  | notModifiedSince
  | notFound
  | ioError
deriving DecidableEq, Repr

/-- Outcome of `write(resource, content, expectedStat)` on the external
content store (spec section 6): success with the new stat, or failure with
`MODIFIED_SINCE` (conflict) or a generic I/O error. -/
inductive WriteResult where
  | ok (stat : FileStat)
  | modifiedSince
  | ioError
deriving DecidableEq, Repr

/-- Translated from `EncodingMode` in `vs/workbench/common/editor`
(src/unnamed/part_004): `Encode` re-encodes the current input with the
provided encoding, `Decode` re-decodes it. -/
inductive EncodingMode where
  | Encode
  | Decode
deriving DecidableEq, Repr

/-- Translated from `ISaveOptions` in `vs/workbench/common/editor`
(src/unnamed/part_004), keeping the fields the model consults: `force` saves
the contents again even if the working copy is not dirty. -/
structure ISaveOptions where
  force : Bool := false
deriving DecidableEq, Repr

/-- Translated from `IRevertOptions` in `vs/workbench/common/editor`
(src/unnamed/part_004): `soft` clears the dirty state without loading the
persisted state; `force` loads the contents again even if not dirty. -/
structure IRevertOptions where
  force : Bool := false
  soft : Bool := false
deriving DecidableEq, Repr

/-- Modelled from the spec: the `TextFileModel` data model of spec section 3
(the `TextFileEditorModel` class is missing from the shipped sources). The
`resolved` flag records whether an initial load has completed (spec:
`setDirty` is a no-op before the first successful load); `readonlyFlag`
mirrors `isReadonly()`; `disposedFlag` mirrors `isDisposed()`. -/
structure TextFileModel where
  resource : Nat
  content : String
  encoding : String
  lastSaveAttemptTime : Int
  stat : Option FileStat
  state : ModelState
  versionId : Nat
  resolved : Bool
  readonlyFlag : Bool
  disposedFlag : Bool
deriving DecidableEq, Repr

/-- Query from spec section 6: whether the model has no write permission. -/
def isReadonly (m : TextFileModel) : Bool :=
  m.readonlyFlag

/-- Modelled from the spec: `isDirty()` is true in the `DIRTY`, `CONFLICT`
and `ERROR` states (a failed save leaves the model dirty, spec section 4),
and is hard-wired false for read-only models (spec section 4 state machine
notes). -/
def isDirty (m : TextFileModel) : Bool :=
  !m.readonlyFlag &&
    (match m.state with
     | .DIRTY => true
     | .CONFLICT => true
     | .ERROR => true
     | _ => false)

/-- Query from spec section 6: whether the model is in the given state. -/
def hasState (m : TextFileModel) (s : ModelState) : Bool :=
  m.state = s

/-- Query from spec section 6: last known on-disk metadata. -/
def getStat (m : TextFileModel) : Option FileStat :=
  m.stat

/-- Helper used by the test suite (`getLastModifiedTime`): the mtime of the
stat, or `-1` when no stat is known yet. -/
def getLastModifiedTime (m : TextFileModel) : Int :=
  match m.stat with
  | some st => st.mtime
  | none => -1

/-- Query from spec section 6: timestamp of the most recent save attempt. -/
def getLastSaveAttemptTime (m : TextFileModel) : Int :=
  m.lastSaveAttemptTime

/-- Query mirroring `isDisposed()`. -/
def isDisposed (m : TextFileModel) : Bool :=
  m.disposedFlag

/-- Modelled from the spec: a content mutation (edit). Every edit fires a
content-changed notification and bumps `versionId` (spec section 3); an edit
of a clean writable model transitions `SAVED` to `DIRTY` and fires exactly
one dirty-changed notification, while an edit of an already dirty model, or
of a read-only model (which never leaves `SAVED`), causes no state
transition and no dirty-changed notification (spec sections 4 and 8). -/
def setValue (m : TextFileModel) (v : String) :
    TextFileModel × List TextFileEvent :=
  let m1 := { m with content := v, versionId := m.versionId + 1 }
  if m.readonlyFlag || isDirty m then
    (m1, [.contentChanged])
  else
    ({ m1 with state := .DIRTY }, [.contentChanged, .dirtyChanged])

/-- Modelled from the spec: the load bookkeeping shared by `load()` and the
`Decode` branch of `setEncoding` (spec section 4.1). On a successful read
the content and stat are taken over and the state becomes `SAVED`; a read
failing with not-modified-since is treated as success with no mutation;
any other read failure is swallowed when a model already exists in memory
(`resolved`), and surfaces `ERROR` only when none does. -/
def doLoad (m : TextFileModel) (r : ReadResult) :
    TextFileModel × List TextFileEvent :=
  match r with
  | .ok c st =>
      ({ m with content := c, stat := some st, state := .SAVED,
                resolved := true },
       [.loaded])
  | .notModifiedSince => (m, [])
  | .notFound =>
      if m.resolved then (m, []) else ({ m with state := .ERROR }, [])
  | .ioError =>
      if m.resolved then (m, []) else ({ m with state := .ERROR }, [])

/-- Modelled from the spec: `load()` (spec section 4.1). If the model has
unsaved local changes (`DIRTY`), this is a no-op returning the current
in-memory model (local edits always win over background reloads); otherwise
the read outcome is handled by `doLoad`. -/
def load (m : TextFileModel) (r : ReadResult) :
    TextFileModel × List TextFileEvent :=
  if isDirty m then (m, []) else doLoad m r

/-- Modelled from the spec: `save(options)` (spec section 4.1). Saves are
no-ops for read-only models (spec section 4 state machine notes) and for
clean models unless `force` is set. Otherwise the attempt timestamp is
recorded and the write outcome decides the transition: success updates the
stat, clears the dirty flag, moves to `SAVED` and fires a saved
notification (plus a dirty-changed notification when the model was dirty);
a modified-since failure moves to `CONFLICT` and any other failure to
`ERROR`, in both cases firing exactly one save-error notification while the
model remains dirty. -/
def save (m : TextFileModel) (opts : ISaveOptions) (w : WriteResult)
    (now : Int) : TextFileModel × List TextFileEvent :=
  if m.readonlyFlag then (m, [])
  else if !isDirty m && !opts.force then (m, [])
  else
    let wasDirty := isDirty m
    let m1 := { m with lastSaveAttemptTime := now }
    match w with
    | .ok st =>
        ({ m1 with stat := some st, state := .SAVED },
         (if wasDirty then [.dirtyChanged] else []) ++ [.saved])
    | .modifiedSince => ({ m1 with state := .CONFLICT }, [.saveError])
    | .ioError => ({ m1 with state := .ERROR }, [.saveError])

/-- Modelled from the spec: `revert(options)` (spec section 4.1). A soft
revert clears the dirty flag without re-reading from disk (content keeps
the in-memory edits); a hard revert restores the on-disk content,
discarding in-memory edits, and clears the dirty flag. Exactly one reverted
notification fires per call regardless of branch, plus a dirty-changed
notification when the model was dirty. -/
def revert (m : TextFileModel) (opts : IRevertOptions)
    (diskContent : String) (diskStat : FileStat) :
    TextFileModel × List TextFileEvent :=
  let evs := (if isDirty m then [TextFileEvent.dirtyChanged] else []) ++
    [TextFileEvent.reverted]
  if opts.soft then
    ({ m with state := .SAVED }, evs)
  else
    ({ m with content := diskContent, stat := some diskStat,
              state := .SAVED, versionId := m.versionId + 1 },
     evs)

/-- Modelled from the spec: `setDirty(flag)` (spec section 4.1). A no-op for
read-only models and before the first successful load; otherwise it fires a
dirty-changed notification only on an actual state transition. -/
def setDirty (m : TextFileModel) (flag : Bool) :
    TextFileModel × List TextFileEvent :=
  if m.readonlyFlag || !m.resolved then (m, [])
  else if flag then
    if isDirty m then (m, [])
    else ({ m with state := .DIRTY }, [.dirtyChanged])
  else
    if isDirty m then ({ m with state := .SAVED }, [.dirtyChanged])
    else (m, [])

/-- Modelled from the spec: `setEncoding(encoding, mode)` (spec section
4.1). In `Encode` mode a request for the current encoding is a no-op, and a
differing encoding fires an encoding-changed notification and triggers an
immediate forced save under the new encoding. In `Decode` mode the
in-memory state is discarded and reloaded from the store under the new
encoding, with an encoding-changed notification only when the encoding
differs from current. -/
def setEncoding (m : TextFileModel) (e : String) (mode : EncodingMode)
    (w : WriteResult) (r : ReadResult) (now : Int) :
    TextFileModel × List TextFileEvent :=
  match mode with
  | .Encode =>
      if e = m.encoding then (m, [])
      else
        let res := save { m with encoding := e } { force := true } w now
        (res.1, .encodingChanged :: res.2)
  | .Decode =>
      let evs0 := if e = m.encoding then [] else [TextFileEvent.encodingChanged]
      let res := doLoad { m with encoding := e } r
      (res.1, evs0 ++ res.2)

/-- Modelled from the spec: `dispose()` (spec section 4.1) releases the
model and fires a disposed notification once; disposing twice fires
nothing further. -/
def dispose (m : TextFileModel) : TextFileModel × List TextFileEvent :=
  if m.disposedFlag then (m, [])
  else ({ m with disposedFlag := true }, [.disposedEvent])

/-- Modelled from the spec: the single-writer-per-resource discipline of
spec section 5. `inFlight` counts write operations currently running
against the resource and `queued` records a save request that arrived while
one was pending and must serialize behind it. -/
structure SaveScheduler where
  inFlight : Nat
  queued : Bool
deriving DecidableEq, Repr

/-- Scheduler transitions: a save request, or the completion of the write
currently in flight. -/
inductive SaveSchedulerOp where
  | request
  | complete
deriving DecidableEq, Repr

/-- Modelled from the spec: one scheduler step (spec section 5). A request
starts a write only when none is in flight, and otherwise queues behind the
pending one; a completion either starts the queued request or goes idle. -/
def saveSchedulerStep (s : SaveScheduler) (op : SaveSchedulerOp) :
    SaveScheduler :=
  match op with
  | .request =>
      if s.inFlight = 0 then { inFlight := 1, queued := s.queued }
      else { s with queued := true }
  | .complete =>
      if s.inFlight = 0 then s
      else if s.queued then { inFlight := 1, queued := false }
      else { inFlight := 0, queued := false }

/-- The scheduler state reached from the idle state by a sequence of
requests and completions. -/
def saveSchedulerRun (ops : List SaveSchedulerOp) : SaveScheduler :=
  ops.foldl saveSchedulerStep { inFlight := 0, queued := false }

/-- A freshly loaded writable model over the fixture content of the test
suite. -/
def loadedModel : TextFileModel :=
  { resource := 0, content := "Hello Html", encoding := "utf8",
    lastSaveAttemptTime := -1, stat := some { mtime := 1, size := 10 },
    state := .SAVED, versionId := 1, resolved := true,
    readonlyFlag := false, disposedFlag := false }

/-- The loaded model after one edit, hence dirty. -/
def dirtyModel : TextFileModel :=
  (setValue loadedModel "foo").1

/-- The loaded model with write permission withheld, as built by
`TestTextFileEditorModel` in the test suite. -/
def readonlyModel : TextFileModel :=
  { loadedModel with readonlyFlag := true }

/-- A writable model that never completed a load (no model previously
existed in memory). -/
def freshModel : TextFileModel :=
  { resource := 0, content := "", encoding := "utf8",
    lastSaveAttemptTime := -1, stat := none, state := .SAVED,
    versionId := 0, resolved := false, readonlyFlag := false,
    disposedFlag := false }

/-- A dirty model is never read-only: `isDirty` is hard-wired false for
read-only models. -/
theorem readonlyFlag_false_of_isDirty (m : TextFileModel)
    (h : isDirty m = true) : m.readonlyFlag = false := by
  unfold isDirty at h
  cases hro : m.readonlyFlag with
  | false => rfl
  | true => rw [hro] at h; simp at h

/-- C1: for every loaded dirty model, a save whose write fails with the
modified-since (conflict) signal ends in state `CONFLICT`, and a save whose
write fails with a generic error ends in state `ERROR`; in both cases
`isDirty` still returns true afterwards and exactly one save-error
notification fires. -/
theorem save_failure_conflict_or_error (m : TextFileModel)
    (opts : ISaveOptions) (now : Int) (h : isDirty m = true) :
    (save m opts .modifiedSince now).1.state = .CONFLICT ∧
    isDirty (save m opts .modifiedSince now).1 = true ∧
    (save m opts .modifiedSince now).2.count .saveError = 1 ∧
    (save m opts .ioError now).1.state = .ERROR ∧
    isDirty (save m opts .ioError now).1 = true ∧
    (save m opts .ioError now).2.count .saveError = 1 := by
  have hro := readonlyFlag_false_of_isDirty m h
  refine ⟨?_, ?_, ?_, ?_, ?_, ?_⟩ <;>
    simp only [save, hro, h, Bool.not_true, Bool.false_and, Bool.and_false,
      Bool.false_eq_true, if_false, reduceIte] <;>
    first
      | decide
      | simp [isDirty, hro]

/-- Witness for C1 at a concrete dirty model. -/
theorem save_failure_conflict_or_error_witness :
    isDirty dirtyModel = true ∧
    ((save dirtyModel { force := false } .modifiedSince 5).1.state =
        .CONFLICT ∧
     isDirty (save dirtyModel { force := false } .modifiedSince 5).1 = true ∧
     (save dirtyModel { force := false } .modifiedSince 5).2.count
        .saveError = 1 ∧
     (save dirtyModel { force := false } .ioError 5).1.state = .ERROR ∧
     isDirty (save dirtyModel { force := false } .ioError 5).1 = true ∧
     (save dirtyModel { force := false } .ioError 5).2.count
        .saveError = 1) :=
  ⟨by decide,
   save_failure_conflict_or_error dirtyModel { force := false } 5 (by decide)⟩

/-- C2: for every loaded dirty model, a soft revert clears the dirty flag
while the in-memory content is unchanged, a hard revert restores the
on-disk content and clears the dirty flag, and in both branches exactly one
reverted notification fires. -/
theorem revert_soft_and_hard (m : TextFileModel) (c : String)
    (st : FileStat) (h : isDirty m = true) :
    (isDirty (revert m { soft := true } c st).1 = false ∧
     (revert m { soft := true } c st).1.content = m.content ∧
     (revert m { soft := true } c st).2.count .reverted = 1) ∧
    (isDirty (revert m { soft := false } c st).1 = false ∧
     (revert m { soft := false } c st).1.content = c ∧
     (revert m { soft := false } c st).2.count .reverted = 1) := by
  have hro := readonlyFlag_false_of_isDirty m h
  refine ⟨⟨?_, ?_, ?_⟩, ⟨?_, ?_, ?_⟩⟩ <;>
    simp only [revert, hro, h, if_true, reduceIte] <;>
    first
      | decide
      | (simp [isDirty, hro]; try decide)

/-- Witness for C2 at a concrete dirty model. -/
theorem revert_soft_and_hard_witness :
    isDirty dirtyModel = true ∧
    ((isDirty (revert dirtyModel { soft := true } "Hello Html"
        { mtime := 1, size := 10 }).1 = false ∧
      (revert dirtyModel { soft := true } "Hello Html"
        { mtime := 1, size := 10 }).1.content = dirtyModel.content ∧
      (revert dirtyModel { soft := true } "Hello Html"
        { mtime := 1, size := 10 }).2.count .reverted = 1) ∧
     (isDirty (revert dirtyModel { soft := false } "Hello Html"
        { mtime := 1, size := 10 }).1 = false ∧
      (revert dirtyModel { soft := false } "Hello Html"
        { mtime := 1, size := 10 }).1.content = "Hello Html" ∧
      (revert dirtyModel { soft := false } "Hello Html"
        { mtime := 1, size := 10 }).2.count .reverted = 1)) :=
  ⟨by decide,
   revert_soft_and_hard dirtyModel "Hello Html" { mtime := 1, size := 10 }
     (by decide)⟩

/-- C3: for every model in a dirty state, `load` is a no-op that returns
the current in-memory model unchanged with no notifications, and the model
remains dirty afterwards. -/
theorem load_dirty_no_op (m : TextFileModel) (r : ReadResult)
    (h : isDirty m = true) :
    load m r = (m, []) ∧ isDirty (load m r).1 = true := by
  simp [load, h]

/-- Witness for C3 at a concrete dirty model. -/
theorem load_dirty_no_op_witness :
    isDirty dirtyModel = true ∧
    (load dirtyModel (.ok "Hello Change" { mtime := 2, size := 12 }) =
        (dirtyModel, []) ∧
     isDirty (load dirtyModel
        (.ok "Hello Change" { mtime := 2, size := 12 })).1 = true) :=
  ⟨by decide,
   load_dirty_no_op dirtyModel (.ok "Hello Change" { mtime := 2, size := 12 })
     (by decide)⟩

/-- C4: for every model that previously completed a load, a subsequent load
failing with not-modified-since is treated as success with no mutation (in
particular the mtime of the stat is unchanged), and a subsequent load
failing with any other error is swallowed, retaining the previous in-memory
state; `ERROR` is surfaced on a failing load only when no model previously
existed in memory. -/
theorem load_failure_handling (m : TextFileModel) (h : m.resolved = true) :
    (load m .notModifiedSince = (m, []) ∧
     getLastModifiedTime (load m .notModifiedSince).1 =
        getLastModifiedTime m) ∧
    load m .notFound = (m, []) ∧
    load m .ioError = (m, []) ∧
    (∀ m0 : TextFileModel, m0.resolved = false → isDirty m0 = false →
       (load m0 .notFound).1.state = .ERROR ∧
       (load m0 .ioError).1.state = .ERROR) := by
  refine ⟨⟨?_, ?_⟩, ?_, ?_, ?_⟩
  case _ => cases hd : isDirty m <;> simp [load, doLoad, hd]
  case _ => cases hd : isDirty m <;> simp [load, doLoad, hd]
  case _ => cases hd : isDirty m <;> simp [load, doLoad, hd, h]
  case _ => cases hd : isDirty m <;> simp [load, doLoad, hd, h]
  case _ =>
    intro m0 h0 hd0
    exact ⟨by simp [load, doLoad, hd0, h0], by simp [load, doLoad, hd0, h0]⟩

/-- Witness for C4 at a concrete previously loaded model and a concrete
never-loaded model. -/
theorem load_failure_handling_witness :
    loadedModel.resolved = true ∧
    ((load loadedModel .notModifiedSince = (loadedModel, []) ∧
      getLastModifiedTime (load loadedModel .notModifiedSince).1 =
        getLastModifiedTime loadedModel) ∧
     load loadedModel .notFound = (loadedModel, []) ∧
     load loadedModel .ioError = (loadedModel, []) ∧
     (freshModel.resolved = false ∧ isDirty freshModel = false ∧
      (load freshModel .notFound).1.state = .ERROR ∧
      (load freshModel .ioError).1.state = .ERROR)) :=
  ⟨by decide,
   (load_failure_handling loadedModel (by decide)).1,
   (load_failure_handling loadedModel (by decide)).2.1,
   (load_failure_handling loadedModel (by decide)).2.2.1,
   by decide, by decide,
   (load_failure_handling loadedModel (by decide)).2.2.2 freshModel
     (by decide) (by decide)⟩

/-- C5 counterexample: the claim quantifies over every non-dirty model, but
a read-only model is non-dirty and `save` is a no-op for it (spec section
4): the forced save fires no saved notification and leaves
`lastSaveAttemptTime` untouched. -/
theorem save_touch_readonly_counterexample :
    isDirty readonlyModel = false ∧
    ¬ ((save readonlyModel { force := true }
          (.ok { mtime := 2, size := 10 }) 5).2.count .saved = 1 ∧
       (save readonlyModel { force := true }
          (.ok { mtime := 2, size := 10 }) 5).1.lastSaveAttemptTime = 5) := by
  decide

/-- C5 (amended to writable models): for every writable non-dirty model, a
forced save with a successful write fires exactly one saved notification
and no dirty-changed notification, updates `lastSaveAttemptTime` to the
attempt time, and leaves the model non-dirty. -/
theorem save_touch_emits_saved (m : TextFileModel) (st : FileStat)
    (now : Int) (hro : m.readonlyFlag = false) (h : isDirty m = false) :
    (save m { force := true } (.ok st) now).2.count .saved = 1 ∧
    (save m { force := true } (.ok st) now).2.count .dirtyChanged = 0 ∧
    (save m { force := true } (.ok st) now).1.lastSaveAttemptTime = now ∧
    isDirty (save m { force := true } (.ok st) now).1 = false := by
  refine ⟨?_, ?_, ?_, ?_⟩ <;>
    simp only [save, hro, h, Bool.not_false, Bool.not_true, Bool.true_and,
      Bool.and_false, Bool.false_eq_true, if_false, reduceIte] <;>
    first
      | decide
      | (simp [isDirty, hro]; try decide)

/-- Witness for the amended C5 at a concrete loaded clean model. -/
theorem save_touch_emits_saved_witness :
    loadedModel.readonlyFlag = false ∧ isDirty loadedModel = false ∧
    ((save loadedModel { force := true }
        (.ok { mtime := 2, size := 10 }) 5).2.count .saved = 1 ∧
     (save loadedModel { force := true }
        (.ok { mtime := 2, size := 10 }) 5).2.count .dirtyChanged = 0 ∧
     (save loadedModel { force := true }
        (.ok { mtime := 2, size := 10 }) 5).1.lastSaveAttemptTime = 5 ∧
     isDirty (save loadedModel { force := true }
        (.ok { mtime := 2, size := 10 }) 5).1 = false) :=
  ⟨by decide, by decide,
   save_touch_emits_saved loadedModel { mtime := 2, size := 10 } 5
     (by decide) (by decide)⟩

/-- C6: a read-only model in state `SAVED` never leaves `SAVED` under
content edits, `isDirty` returns false after any edit, and neither `revert`
nor `setDirty` on such a model fires a dirty-changed notification. -/
theorem readonly_never_dirty (m : TextFileModel) (v : String)
    (opts : IRevertOptions) (c : String) (st : FileStat) (b : Bool)
    (hro : m.readonlyFlag = true) (hs : m.state = .SAVED) :
    (setValue m v).1.state = .SAVED ∧
    isDirty (setValue m v).1 = false ∧
    (revert m opts c st).2.count .dirtyChanged = 0 ∧
    (setDirty m b).2.count .dirtyChanged = 0 := by
  have hd : isDirty m = false := by simp [isDirty, hro]
  refine ⟨?_, ?_, ?_, ?_⟩
  · simp [setValue, hro, hs]
  · simp [setValue, isDirty, hro]
  · cases hsoft : opts.soft <;> simp [revert, hd, hsoft] <;> decide
  · simp [setDirty, hro]

/-- Witness for C6 at a concrete loaded read-only model. -/
theorem readonly_never_dirty_witness :
    readonlyModel.readonlyFlag = true ∧ readonlyModel.state = .SAVED ∧
    ((setValue readonlyModel "foo").1.state = .SAVED ∧
     isDirty (setValue readonlyModel "foo").1 = false ∧
     (revert readonlyModel { soft := true } "Hello Html"
        { mtime := 1, size := 10 }).2.count .dirtyChanged = 0 ∧
     (setDirty readonlyModel true).2.count .dirtyChanged = 0) :=
  ⟨by decide, by decide,
   readonly_never_dirty readonlyModel "foo" { soft := true } "Hello Html"
     { mtime := 1, size := 10 } true (by decide) (by decide)⟩

/-- C7 counterexample: the claim quantifies over every model, but for a
read-only model a differing `Encode` request does not trigger a save (spec
section 4: saves are no-ops for read-only models): the stat keeps its
previous mtime and no saved notification fires. -/
theorem setEncoding_encode_readonly_counterexample :
    "utf16" ≠ readonlyModel.encoding ∧
    (setEncoding readonlyModel "utf16" .Encode
       (.ok { mtime := 2, size := 10 }) .ioError 5).1.stat =
      some { mtime := 1, size := 10 } ∧
    (setEncoding readonlyModel "utf16" .Encode
       (.ok { mtime := 2, size := 10 }) .ioError 5).2.count .saved = 0 := by
  decide

/-- C7 (amended to writable models): for every writable model, an `Encode`
request for the current encoding is a no-op (no notification, no save, the
model is unchanged), while an `Encode` request for a differing encoding
fires exactly one encoding-changed notification and triggers an immediate
save, so a successful write installs the new stat. -/
theorem setEncoding_encode (m : TextFileModel) (e : String)
    (w : WriteResult) (r : ReadResult) (now : Int) (st : FileStat)
    (hro : m.readonlyFlag = false) :
    (e = m.encoding → setEncoding m e .Encode w r now = (m, [])) ∧
    (e ≠ m.encoding → w = .ok st →
      (setEncoding m e .Encode w r now).2.count .encodingChanged = 1 ∧
      (setEncoding m e .Encode w r now).1.stat = some st) := by
  constructor
  · intro he
    simp [setEncoding, he]
  · intro he hw
    subst hw
    refine ⟨?_, ?_⟩ <;>
      cases hst : m.state <;>
        simp only [setEncoding, he, save, isDirty, hro, hst, Bool.not_false,
          Bool.not_true, Bool.and_false, Bool.false_and, Bool.true_and,
          Bool.and_true, Bool.false_eq_true, if_false, reduceIte, ite_false,
          ite_true] <;>
        rfl

/-- Witness for the amended C7 at a concrete loaded model, exercising both
the identical-encoding no-op branch and the differing-encoding branch. -/
theorem setEncoding_encode_witness :
    loadedModel.readonlyFlag = false ∧
    ("utf8" = loadedModel.encoding ∧
     setEncoding loadedModel "utf8" .Encode
        (.ok { mtime := 2, size := 10 }) .ioError 5 = (loadedModel, [])) ∧
    ("utf16" ≠ loadedModel.encoding ∧
     (setEncoding loadedModel "utf16" .Encode
        (.ok { mtime := 2, size := 10 }) .ioError 5).2.count
          .encodingChanged = 1 ∧
     (setEncoding loadedModel "utf16" .Encode
        (.ok { mtime := 2, size := 10 }) .ioError 5).1.stat =
       some { mtime := 2, size := 10 }) :=
  ⟨by decide,
   ⟨by decide,
    (setEncoding_encode loadedModel "utf8" (.ok { mtime := 2, size := 10 })
       .ioError 5 { mtime := 2, size := 10 } (by decide)).1 (by decide)⟩,
   ⟨by decide,
    (setEncoding_encode loadedModel "utf16" (.ok { mtime := 2, size := 10 })
       .ioError 5 { mtime := 2, size := 10 } (by decide)).2 (by decide) rfl⟩⟩

/-- C8 counterexample: the claim quantifies over every loaded non-dirty
model, but for a loaded read-only model (which is non-dirty) an edit does
not flip `isDirty` to true and fires no dirty-changed notification. -/
theorem first_edit_readonly_counterexample :
    isDirty readonlyModel = false ∧ readonlyModel.resolved = true ∧
    ¬ (isDirty (setValue readonlyModel "foo").1 = true ∧
       (setValue readonlyModel "foo").2.count .dirtyChanged = 1) := by
  decide

/-- C8 (amended to writable models): for every loaded writable non-dirty
model, the first edit flips `isDirty` to true and fires exactly one
dirty-changed notification, and a further edit of the now dirty model fires
exactly one content-changed notification and no further dirty-changed
notification. -/
theorem first_edit_flips_dirty (m : TextFileModel) (v w : String)
    (hro : m.readonlyFlag = false) (h : isDirty m = false) :
    isDirty (setValue m v).1 = true ∧
    (setValue m v).2.count .dirtyChanged = 1 ∧
    (setValue (setValue m v).1 w).2.count .contentChanged = 1 ∧
    (setValue (setValue m v).1 w).2.count .dirtyChanged = 0 := by
  refine ⟨?_, ?_, ?_, ?_⟩ <;>
    simp only [setValue, hro, h, Bool.false_or, Bool.or_false,
      Bool.false_eq_true, if_false, reduceIte] <;>
    first
      | decide
      | (simp [isDirty, hro]; try decide)

/-- Witness for the amended C8 at a concrete loaded clean model. -/
theorem first_edit_flips_dirty_witness :
    loadedModel.readonlyFlag = false ∧ isDirty loadedModel = false ∧
    (isDirty (setValue loadedModel "bar").1 = true ∧
     (setValue loadedModel "bar").2.count .dirtyChanged = 1 ∧
     (setValue (setValue loadedModel "bar").1 "foo").2.count
        .contentChanged = 1 ∧
     (setValue (setValue loadedModel "bar").1 "foo").2.count
        .dirtyChanged = 0) :=
  ⟨by decide, by decide,
   first_edit_flips_dirty loadedModel "bar" "foo" (by decide) (by decide)⟩

/-- Scheduler steps preserve the single-writer bound on in-flight saves. -/
theorem saveSchedulerStep_inFlight_le (s : SaveScheduler)
    (op : SaveSchedulerOp) (h : s.inFlight ≤ 1) :
    (saveSchedulerStep s op).inFlight ≤ 1 := by
  cases op <;> simp only [saveSchedulerStep] <;> (repeat' split) <;> simp_all

/-- Folding scheduler steps from a state within the bound stays within the
bound. -/
theorem saveSchedulerFoldl_inFlight_le (ops : List SaveSchedulerOp) :
    ∀ s : SaveScheduler, s.inFlight ≤ 1 →
      (ops.foldl saveSchedulerStep s).inFlight ≤ 1 := by
  induction ops with
  | nil => intro s h; exact h
  | cons op rest ih =>
      intro s h
      exact ih _ (saveSchedulerStep_inFlight_le s op h)

/-- C9: under the save scheduling discipline, after any sequence of save
requests and completions at most one save is in flight, and a further save
request issued while one is in flight does not start a concurrent write:
it leaves exactly one write in flight and records the request as queued
behind the pending one. -/
theorem single_save_in_flight (ops : List SaveSchedulerOp) :
    (saveSchedulerRun ops).inFlight ≤ 1 ∧
    ((saveSchedulerRun ops).inFlight = 1 →
      (saveSchedulerStep (saveSchedulerRun ops) .request).inFlight = 1 ∧
      (saveSchedulerStep (saveSchedulerRun ops) .request).queued = true) := by
  constructor
  · exact saveSchedulerFoldl_inFlight_le ops _ (by decide)
  · intro h1
    unfold saveSchedulerStep
    rw [h1]
    simp

/-- Witness for C9 at a concrete schedule with one save already in
flight. -/
theorem single_save_in_flight_witness :
    (saveSchedulerRun [SaveSchedulerOp.request]).inFlight = 1 ∧
    (saveSchedulerStep (saveSchedulerRun [SaveSchedulerOp.request])
       .request).inFlight = 1 ∧
    (saveSchedulerStep (saveSchedulerRun [SaveSchedulerOp.request])
       .request).queued = true :=
  ⟨by decide,
   ((single_save_in_flight [SaveSchedulerOp.request]).2 (by decide)).1,
   ((single_save_in_flight [SaveSchedulerOp.request]).2 (by decide)).2⟩

end TextFile
